import Mathlib

/-!
Verification of the editing-session state machine and command-dispatch layer of
the ai-video application (src/index.tsx), as a shallow embedding.

Modelling conventions:
* JavaScript floating-point times and durations are modelled as rationals.
  The NaN case (no media loaded) is outside the modelled domain; the theorems
  that depend on a duration hypothesize a loaded video.
* DOM element values (slider positions, select values, text inputs) are fields
  of an explicit `AppState` record mirroring the module-level mutable variables
  and the widgets the code reads back from. Assigning a value to a slider is
  modelled as storing the given value (browser step re-snapping is not modelled).
* `Number.prototype.toFixed(1)` is modelled by `roundTenth` (round to the
  nearest tenth, halves up, matching round-half-away-from-zero on the
  nonnegative values that occur here).
* The ffmpeg wasm engine is an external collaborator: each call site takes the
  outcome of the `exec`/`readFile` sequence as an `Except String Video`
  argument (`Except.ok v` = transform succeeded producing video `v`).
  The command tokens the code would pass to `exec` are exposed as an
  `FfmpegOp` value so that theorems can state which transform, if any, ran.
-/

namespace AiVideo

/-- A loaded binary video: an object-URL handle plus its duration in seconds. -/
structure Video where
  handle : Nat
  duration : ℚ
deriving DecidableEq, Repr

/-- A clip in the merge bin or clip library (src interface Clip, lines 764-769):
optional persisted id, name, binary payload (modelled by a handle and its
duration) and a thumbnail. -/
structure Clip where
  id : Option Nat
  name : String
  blobHandle : Nat
  blobDuration : ℚ
  thumbnail : String
deriving DecidableEq, Repr

/-- The ffmpeg command actually issued by a call site, per the exec shapes in
applyTrim (line 645), handleApplyEffect (lines 685-723) and the merge handler
(line 979). Filter expressions are tagged; `fade` carries the computed
fade-out start `duration - 1`. `concat` carries the blob handles written to
the input files, in write order. -/
inductive FfmpegOp where
  | trim (startTime endTime : ℚ)
  | filter (expr : String)
  | fadeFilter (fadeOutStart : ℚ)
  | concat (inputs : List Nat)
deriving DecidableEq, Repr

/-- The module-level mutable state of src/index.tsx that the claims concern:
generation configuration, editor flags, trim widgets, merge bin and status. -/
structure AppState where
  ffmpegLoaded : Bool
  isEditorOpen : Bool
  videoSrc : Option Video
  trimStartSliderValue : ℚ
  trimEndSliderValue : ℚ
  trimSliderMax : ℚ
  effectsSelectValue : String
  mergeBin : List Clip
  statusText : String
  prompt : String
  promptElValue : String
  aspectRatio : String
  aspectRatioSelectValue : String
  duration : ℚ
  durationInputValue : String
  resolution : String
  qualitySelectValue : String
deriving DecidableEq, Repr

/-- `video.duration` of the player element: the duration of the loaded video.
The no-media NaN case is not modelled; handlers are only claimed about states
with a loaded video. -/
def videoDuration (st : AppState) : ℚ :=
  match st.videoSrc with
  | some v => v.duration
  | none => 0

/-- `x.toFixed(1)` read back through `parseFloat`: round to the nearest tenth. -/
def roundTenth (x : ℚ) : ℚ :=
  (round (10 * x) : ℤ) / 10

/-- The trimStartSlider input handler (src lines 564-576). The slider already
holds the user-chosen value `newStart` (the DOM clamps it to [0, max]); if it
passed the end handle it is pushed back to `max 0 (end - 0.1)` via toFixed(1). -/
def trimStartSliderInput (st : AppState) (newStart : ℚ) : AppState :=
  let startValue := newStart
  let endValue := st.trimEndSliderValue
  let st1 := { st with trimStartSliderValue := startValue }
  if endValue ≤ startValue then
    { st1 with trimStartSliderValue := roundTenth (max 0 (endValue - 1/10)) }
  else
    st1

/-- The trimEndSlider input handler (src lines 578-591). If the end handle
passed the start handle it is pushed to `min max (start + 0.1)` via toFixed(1),
where `max` is the slider maximum (set to the video duration on editor open). -/
def trimEndSliderInput (st : AppState) (newEnd : ℚ) : AppState :=
  let startValue := st.trimStartSliderValue
  let endValue := newEnd
  let st1 := { st with trimEndSliderValue := endValue }
  if endValue ≤ startValue then
    let maxDuration := st.trimSliderMax
    { st1 with trimEndSliderValue := roundTenth (min maxDuration (startValue + 1/10)) }
  else
    st1

/-- The trimStartTimeInput change handler (src lines 593-608): the typed value
is clamped to [0, video.duration], then pushed below the end handle if needed,
and written back to the start slider (no toFixed on this path). -/
def trimStartTimeInputChange (st : AppState) (typed : ℚ) : AppState :=
  let endValue := st.trimEndSliderValue
  let maxDuration := videoDuration st
  let startValue := max 0 (min typed maxDuration)
  let startValue := if endValue ≤ startValue then max 0 (endValue - 1/10) else startValue
  { st with trimStartSliderValue := startValue }

/-- The trimEndTimeInput change handler (src lines 610-625): the typed value is
clamped to [0, video.duration], then pushed above the start handle if needed,
and written back to the end slider (no toFixed on this path). -/
def trimEndTimeInputChange (st : AppState) (typed : ℚ) : AppState :=
  let startValue := st.trimStartSliderValue
  let maxDuration := videoDuration st
  let endValue := max 0 (min typed maxDuration)
  let endValue := if endValue ≤ startValue then min maxDuration (startValue + 1/10) else endValue
  { st with trimEndSliderValue := endValue }

/-- The cancelTrimButton click handler (src lines 556-562): closes the editor
and resets the effects dropdown. Trim sliders are left as they are. -/
def cancelTrimClick (st : AppState) : AppState :=
  { st with isEditorOpen := false, effectsSelectValue := "none" }

/-- The editButton click handler (src lines 533-554): loads ffmpeg if needed,
opens the editor and initializes the trim widgets to the full range
[0, video.duration]. -/
def editButtonClick (st : AppState) : AppState :=
  let d := videoDuration st
  { st with
      ffmpegLoaded := true
      isEditorOpen := true
      trimSliderMax := d
      trimStartSliderValue := 0
      trimEndSliderValue := d }

/-- applyTrim (src lines 627-665). Guard: ffmpeg loaded and a video present.
The exec command is `trim start end` with the current slider values. On engine
success the player source is replaced by the output (the previous object URL is
revoked) and then `cancelTrimButton.click()` closes the editor; on engine
failure only the status text changes. Returns the new state and the command
passed to exec (`none` when no exec was attempted). -/
def applyTrim (st : AppState) (engineResult : Except String Video) :
    AppState × Option FfmpegOp :=
  if st.ffmpegLoaded = false ∨ st.videoSrc = none then (st, none)
  else
    let startTime := st.trimStartSliderValue
    let endTime := st.trimEndSliderValue
    match engineResult with
    | Except.ok newVideo =>
        (cancelTrimClick
          { st with videoSrc := some newVideo, statusText := "Trim successful!" },
         some (FfmpegOp.trim startTime endTime))
    | Except.error _ =>
        ({ st with statusText := "An error occurred during trimming." },
         some (FfmpegOp.trim startTime endTime))

/-- The `-vf` expression pushed for each effect in the switch of
handleApplyEffect (src lines 687-721): the five duration-independent filters.
The fade filter is handled separately since it depends on the duration, and an
unrecognized value hits the throwing default branch. -/
def effectVf : String → Option String
  | "grayscale" => some "format=gray"
  | "sepia" =>
      some "colorchannelmixer=.393:.769:.189:0:.349:.686:.168:0:.272:.534:.131"
  | "vignette" => some "vignette=PI/5"
  | "slowmo" => some "setpts=2.0*PTS"
  | "fastforward" => some "setpts=0.5*PTS"
  | _ => none

/-- handleApplyEffect (src lines 669-758). Guard: ffmpeg loaded, a video
present, and an effect selected. The fade case rejects a clip shorter than 2
seconds before any exec. On engine success the player source is replaced and
the loadedmetadata listener (lines 736-745) resets the trim widgets to the
full range of the new duration; the editor open flag is untouched. On engine
failure (or the throwing default branch) only the status text changes.
Returns the new state and the command passed to exec (`none` when no exec was
attempted). -/
def handleApplyEffect (st : AppState) (engineResult : Except String Video) :
    AppState × Option FfmpegOp :=
  if st.ffmpegLoaded = false ∨ st.videoSrc = none then (st, none)
  else
    let effect := st.effectsSelectValue
    if effect = "none" then (st, none)
    else if effect = "fade" then
      let d := videoDuration st
      if d < 2 then
        ({ st with statusText := "Video is too short for a fade effect." }, none)
      else
        match engineResult with
        | Except.ok newVideo =>
            ({ st with
                videoSrc := some newVideo
                trimSliderMax := newVideo.duration
                trimStartSliderValue := 0
                trimEndSliderValue := newVideo.duration
                statusText := "Effect applied successfully!"
                effectsSelectValue := "none" },
             some (FfmpegOp.fadeFilter (d - 1)))
        | Except.error _ =>
            ({ st with statusText := "An error occurred while applying the effect." },
             some (FfmpegOp.fadeFilter (d - 1)))
    else
      match effectVf effect with
      | none =>
          ({ st with statusText := "An error occurred while applying the effect." },
           none)
      | some vf =>
        match engineResult with
        | Except.ok newVideo =>
            ({ st with
                videoSrc := some newVideo
                trimSliderMax := newVideo.duration
                trimStartSliderValue := 0
                trimEndSliderValue := newVideo.duration
                statusText := "Effect applied successfully!"
                effectsSelectValue := "none" },
             some (FfmpegOp.filter vf))
        | Except.error _ =>
            ({ st with statusText := "An error occurred while applying the effect." },
             some (FfmpegOp.filter vf))

/-- The mergeVideosButton click handler (src lines 959-998). With fewer than 2
bin entries (or ffmpeg missing) it only sets a rejection status. Otherwise the
bin clips are written to input files in bin order and concatenated via the
concat demuxer; on engine success the player source is replaced and the bin is
cleared, on engine failure bin and player are untouched. -/
def mergeVideosClick (st : AppState) (engineResult : Except String Video) :
    AppState × Option FfmpegOp :=
  if st.mergeBin.length < 2 ∨ st.ffmpegLoaded = false then
    ({ st with statusText := "Add at least 2 videos to merge." }, none)
  else
    let op := FfmpegOp.concat (st.mergeBin.map (fun c => c.blobHandle))
    match engineResult with
    | Except.ok newVideo =>
        ({ st with
            videoSrc := some newVideo
            statusText := "Merge successful!"
            mergeBin := [] },
         some op)
    | Except.error _ =>
        ({ st with statusText := "An error occurred during merging." }, some op)

/-- A video entry of the generation response. -/
structure GeneratedVideo where
  uri : String
deriving DecidableEq, Repr

/-- The completion handling of generateContent (src lines 82-96):
`operation.response?.generatedVideos` missing or empty throws
"No videos generated"; otherwise the forEach fetches every video and assigns
each to the player in turn, so the video left in the player is the one of the
last assignment — the last list entry, modelling the per-video async loads as
completing in list order. -/
def generateContentLoad (generatedVideos : Option (List GeneratedVideo)) :
    Except String GeneratedVideo :=
  match generatedVideos with
  | none => Except.error "No videos generated"
  | some vs =>
    match vs.getLast? with
    | none => Except.error "No videos generated"
    | some v => Except.ok v

/-- The two quality values accepted by the setQuality tool (src line 1106,
schema enum at line 1206). -/
inductive Quality where
  | standard
  | high
deriving DecidableEq, Repr

/-- The qualityMap of tools.setQuality (src lines 1107-1110). -/
def qualityMap : Quality → String
  | Quality.standard => "720p"
  | Quality.high => "1080p"

/-- The textual form of a quality value, as interpolated into the result
string of tools.setQuality. -/
def qualityText : Quality → String
  | Quality.standard => "standard"
  | Quality.high => "high"

/-- The effect names of the effects dropdown minus the placeholder, as
computed by tools.applyEffect from the select options (src line 1155) and as
enumerated in the tool schema (src line 1249). -/
def validEffects : List String :=
  ["grayscale", "sepia", "vignette", "fade", "slowmo", "fastforward"]

/-- One invocation of a dispatcher operation with its declared arguments
(the `tools` table, src lines 1090-1163). -/
inductive ToolCall where
  | setPrompt (newPrompt : String)
  | setAspectRatio (newAspectRatio : String)
  | setDuration (newDuration : ℚ)
  | setQuality (newQuality : Quality)
  | clickGenerate
  | openEditor
  | closeEditor
  | trimVideo (startTime endTime : ℚ)
  | applyEffect (effectName : String)
deriving DecidableEq, Repr

/-- The `tools` dispatch table (src lines 1090-1163) as one total function:
every handler returns a result string and never raises to the caller. The
ffmpeg outcome for the operations that may run a transform is the
`engineResult` argument, as for applyTrim and handleApplyEffect. clickGenerate
fires the asynchronous generate() and returns immediately; the generation side
effects happen outside this synchronous step and are not part of its state
change. The interpolated duration bound of the invalid-trim-times message is
elided from the string. -/
def dispatchTool (st : AppState) (call : ToolCall)
    (engineResult : Except String Video) : AppState × String :=
  match call with
  | ToolCall.setPrompt p =>
      ({ st with promptElValue := p, prompt := p },
       "Prompt set to: \"" ++ p ++ "\"")
  | ToolCall.setAspectRatio a =>
      ({ st with aspectRatioSelectValue := a, aspectRatio := a },
       "Aspect ratio set to: " ++ a)
  | ToolCall.setDuration n =>
      ({ st with durationInputValue := toString n, duration := n },
       "Duration set to: " ++ toString n ++ " seconds")
  | ToolCall.setQuality q =>
      let newResolution := qualityMap q
      ({ st with qualitySelectValue := newResolution, resolution := newResolution },
       "Video quality set to: " ++ qualityText q ++ " (" ++ newResolution ++ ")")
  | ToolCall.clickGenerate =>
      (st, "Starting video generation...")
  | ToolCall.openEditor =>
      if st.videoSrc = none then
        (st, "A video must be generated or loaded before you can open the editor.")
      else if st.isEditorOpen then
        (st, "The editor is already open.")
      else
        (editButtonClick st, "Video editor opened.")
  | ToolCall.closeEditor =>
      if st.isEditorOpen = false then
        (st, "The editor is already closed.")
      else
        (cancelTrimClick st, "Video editor closed.")
  | ToolCall.trimVideo s e =>
      if st.isEditorOpen = false then
        (st, "Please open the editor first before trimming.")
      else
        let d := videoDuration st
        if e ≤ s ∨ s < 0 ∨ d < e then
          (st, "Invalid trim times. Start time must be less than end time and within the video bounds.")
        else
          let st1 := { st with trimStartSliderValue := s, trimEndSliderValue := e }
          ((applyTrim st1 engineResult).1, "Video trimmed successfully.")
  | ToolCall.applyEffect name =>
      if st.isEditorOpen = false then
        (st, "Please open the editor first before applying effects.")
      else if name ∉ validEffects then
        (st, "Invalid effect. Please choose from: grayscale, sepia, vignette, fade, slowmo, fastforward.")
      else
        let st1 := { st with effectsSelectValue := name }
        ((handleApplyEffect st1 engineResult).1,
         "Applied the " ++ name ++ " effect successfully.")

/-- The names present in the `tools` dispatch table, in declaration order. -/
def toolNames : List String :=
  ["setPrompt", "setAspectRatio", "setDuration", "setQuality", "clickGenerate",
   "openEditor", "closeEditor", "trimVideo", "applyEffect"]

/-- The tool-use loop of sendMessage (src lines 1295-1317), abstracted over a
script of model responses: `some name` is a response whose parts contain a
function call to tool `name`, `none` a response with no function call (a final
text answer). Returns the names of the tools actually invoked, in order, and
whether the loop ended through the unknown-tool branch (the visible
"Error: Unknown tool" message followed by break). An exhausted script is read
as a final text answer. -/
def agentLoop : List (Option String) → List String × Bool
  | [] => ([], false)
  | none :: _ => ([], false)
  | some name :: rest =>
      if name ∈ toolNames then
        let r := agentLoop rest
        (name :: r.1, r.2)
      else
        ([], true)

/-- MAX_RECORDING_DURATION (src line 209). -/
def MAX_RECORDING_DURATION : Nat := 30

/-- WARNING_START_TIME (src line 210). -/
def WARNING_START_TIME : Nat := 25

/-- The recording-related mutable state of src/index.tsx (lines 212-217 and
the timer interval handle). `timerActive` models a non-null
recordingTimerInterval. -/
structure RecordingState where
  isVideoRecording : Bool
  recordingSeconds : Nat
  timerActive : Bool
  nearingLimit : Bool
deriving DecidableEq, Repr

/-- stopRecording (src lines 355-371): stops the recorder, clears the warning
style and clears the interval timer. -/
def stopRecording (st : RecordingState) : RecordingState :=
  { st with
      isVideoRecording := false
      timerActive := false
      nearingLimit := false }

/-- The state right after startRecording succeeds (src lines 325-347):
recording, timer started, seconds reset to 0. -/
def startRecordingState : RecordingState :=
  { isVideoRecording := true
    recordingSeconds := 0
    timerActive := true
    nearingLimit := false }

/-- One tick of the 1-second interval installed by startRecording (src lines
334-347): increments the counter, sets the warning style in the warning
window, and force-stops the recording once the counter reaches
MAX_RECORDING_DURATION. A cleared timer ticks no more. -/
def recordingTick (st : RecordingState) : RecordingState :=
  if st.timerActive = false then st
  else
    let s := st.recordingSeconds + 1
    let st1 := { st with
        recordingSeconds := s
        nearingLimit :=
          if WARNING_START_TIME ≤ s ∧ s < MAX_RECORDING_DURATION then true
          else st.nearingLimit }
    if MAX_RECORDING_DURATION ≤ s then stopRecording st1 else st1

/-! Helper lemmas about `roundTenth`. -/

theorem roundTenth_le (x : ℚ) : roundTenth x ≤ x + 1 / 20 := by
  unfold roundTenth
  have h := abs_sub_round (10 * x)
  rw [abs_le] at h
  have h2 : (round (10 * x) : ℚ) ≤ 10 * x + 1 / 2 := by linarith [h.1]
  linarith

theorem roundTenth_intMul (k : ℤ) : roundTenth ((k : ℚ) / 10) = (k : ℚ) / 10 := by
  unfold roundTenth
  have h : (10 : ℚ) * ((k : ℚ) / 10) = (k : ℚ) := by ring
  rw [h, round_intCast]

theorem roundTenth_pushback_lt (e : ℚ) (he : 0 < e) :
    roundTenth (max 0 (e - 1 / 10)) < e := by
  rcases le_or_lt (1 / 10) e with h | h
  · have hmax : max 0 (e - 1 / 10) = e - 1 / 10 := max_eq_right (by linarith)
    rw [hmax]
    have := roundTenth_le (e - 1 / 10)
    linarith
  · have hmax : max 0 (e - 1 / 10) = 0 := max_eq_left (by linarith)
    rw [hmax]
    have h0 : roundTenth 0 = 0 := by
      unfold roundTenth
      norm_num
    rw [h0]
    exact he

/-! Concrete states used by witnesses and counterexamples. -/

/-- A session state with the editor open on a 10-second video, trim range at
the full range, as produced by opening the editor right after a load. -/
def editorOpenState : AppState :=
  { ffmpegLoaded := true
    isEditorOpen := true
    videoSrc := some ⟨0, 10⟩
    trimStartSliderValue := 0
    trimEndSliderValue := 10
    trimSliderMax := 10
    effectsSelectValue := "none"
    mergeBin := []
    statusText := ""
    prompt := ""
    promptElValue := ""
    aspectRatio := "16:9"
    aspectRatioSelectValue := "16:9"
    duration := 1
    durationInputValue := "1"
    resolution := "720p"
    qualitySelectValue := "720p" }

/-- Editor open on a 1-second video with the fade effect selected. -/
def fadeShortState : AppState :=
  { editorOpenState with
      videoSrc := some ⟨0, 1⟩
      trimEndSliderValue := 1
      trimSliderMax := 1
      effectsSelectValue := "fade" }

/-- Editor closed, no video loaded. -/
def closedNoVideoState : AppState :=
  { editorOpenState with isEditorOpen := false, videoSrc := none }

/-- Editor open with the start slider parked at the slider maximum. -/
def sliderEdgeState : AppState :=
  { editorOpenState with trimStartSliderValue := 10 }

/-- C9: setQuality maps exactly the two quality values to resolutions,
standard to 720p and high to 1080p, updating the generation configuration
resolution (and the quality select widget) accordingly for every invocation. -/
theorem c9_setQuality_maps_two_values (st : AppState) (q : Quality)
    (r : Except String Video) :
    (dispatchTool st (ToolCall.setQuality q) r).1.resolution = qualityMap q ∧
    (dispatchTool st (ToolCall.setQuality q) r).1.qualitySelectValue = qualityMap q ∧
    qualityMap Quality.standard = "720p" ∧
    qualityMap Quality.high = "1080p" :=
  ⟨rfl, rfl, rfl, rfl⟩

/-- C2 counterexample: a completed generation response holding two videos
leaves the second one, not the first, loaded in the player. -/
theorem c2_counterexample :
    generateContentLoad (some [⟨"video-a"⟩, ⟨"video-b"⟩]) =
      Except.ok (GeneratedVideo.mk "video-b") ∧
    GeneratedVideo.mk "video-b" ≠ GeneratedVideo.mk "video-a" :=
  ⟨rfl, by decide⟩

/-- C2 (amended): a completed generation with zero videos (or a missing video
list) fails with the no-output error; with more than one video the response is
accepted, every video is fetched and loaded into the player in turn, and the
last video of the list is the one left as the active video. -/
theorem c2_amended_generation_output (vs : List GeneratedVideo)
    (v : GeneratedVideo) :
    generateContentLoad none = Except.error "No videos generated" ∧
    generateContentLoad (some []) = Except.error "No videos generated" ∧
    generateContentLoad (some (vs ++ [v])) = Except.ok v := by
  refine ⟨rfl, rfl, ?_⟩
  simp [generateContentLoad, List.getLast?_concat]

/-- C4: applying the fade effect to a video shorter than 2 seconds always
fails with the clip-too-short status, leaves the active video (and the editor
flag) unchanged, and runs no ffmpeg transform. -/
theorem c4_fade_short_clip (st : AppState) (v : Video)
    (r : Except String Video)
    (hload : st.ffmpegLoaded = true) (hsrc : st.videoSrc = some v)
    (heff : st.effectsSelectValue = "fade") (hshort : v.duration < 2) :
    (handleApplyEffect st r).1.videoSrc = st.videoSrc ∧
    (handleApplyEffect st r).2 = none ∧
    (handleApplyEffect st r).1.statusText = "Video is too short for a fade effect." ∧
    (handleApplyEffect st r).1.isEditorOpen = st.isEditorOpen := by
  simp [handleApplyEffect, videoDuration, hload, hsrc, heff, hshort]

/-- C4 witness: on a concrete 1-second video with fade selected, the handler
rejects without touching the video and without issuing a command. -/
theorem c4_fade_short_clip_witness :
    (handleApplyEffect fadeShortState (Except.ok ⟨5, 3⟩)).1.videoSrc = fadeShortState.videoSrc ∧
    (handleApplyEffect fadeShortState (Except.ok ⟨5, 3⟩)).2 = none ∧
    (handleApplyEffect fadeShortState (Except.ok ⟨5, 3⟩)).1.statusText =
      "Video is too short for a fade effect." ∧
    (handleApplyEffect fadeShortState (Except.ok ⟨5, 3⟩)).1.isEditorOpen =
      fadeShortState.isEditorOpen :=
  c4_fade_short_clip fadeShortState ⟨0, 1⟩ (Except.ok ⟨5, 3⟩) rfl rfl rfl (by norm_num)

/-- The invariant maintained by the recording timer: the counter never passes
the hard limit, an armed timer means the limit is not yet reached, and an
active recording implies an armed timer. -/
def RecordingInvariant (st : RecordingState) : Prop :=
  st.recordingSeconds ≤ MAX_RECORDING_DURATION ∧
  (st.timerActive = true → st.recordingSeconds < MAX_RECORDING_DURATION) ∧
  (st.isVideoRecording = true → st.timerActive = true)

theorem recordingInvariant_start : RecordingInvariant startRecordingState := by
  refine ⟨by norm_num [startRecordingState, MAX_RECORDING_DURATION], ?_, ?_⟩
  · intro _
    norm_num [startRecordingState, MAX_RECORDING_DURATION]
  · intro _
    rfl

theorem recordingInvariant_tick (st : RecordingState)
    (h : RecordingInvariant st) : RecordingInvariant (recordingTick st) := by
  obtain ⟨h1, h2, h3⟩ := h
  by_cases ht : st.timerActive = false
  · simp only [recordingTick, if_pos ht]
    exact ⟨h1, h2, h3⟩
  · have ht' : st.timerActive = true := by
      cases hb : st.timerActive
      · exact absurd hb ht
      · rfl
    have hlt : st.recordingSeconds < MAX_RECORDING_DURATION := h2 ht'
    by_cases hm : MAX_RECORDING_DURATION ≤ st.recordingSeconds + 1
    · simp only [RecordingInvariant, recordingTick, stopRecording, if_neg ht,
        if_pos hm]
      refine ⟨by omega, ?_, ?_⟩
      · intro hcontra
        cases hcontra
      · intro hcontra
        cases hcontra
    · simp only [RecordingInvariant, recordingTick, if_neg ht, if_neg hm]
      exact ⟨by omega, fun _ => by omega, fun _ => ht'⟩

theorem recordingInvariant_iterate (n : Nat) :
    RecordingInvariant (recordingTick^[n] startRecordingState) := by
  induction n with
  | zero => exact recordingInvariant_start
  | succ k ih =>
      rw [Function.iterate_succ_apply']
      exact recordingInvariant_tick _ ih

/-- C10: under the 1-second recording timer started by startRecording, the
elapsed counter never exceeds the hard limit MAX_RECORDING_DURATION = 30, and
whenever the recording is still active the counter is strictly below the
limit: reaching the limit force-stops the recording within the same tick. -/
theorem c10_recording_hard_stop (n : Nat) :
    (recordingTick^[n] startRecordingState).recordingSeconds ≤ MAX_RECORDING_DURATION ∧
    ((recordingTick^[n] startRecordingState).isVideoRecording = true →
      (recordingTick^[n] startRecordingState).recordingSeconds < MAX_RECORDING_DURATION) := by
  obtain ⟨h1, h2, h3⟩ := recordingInvariant_iterate n
  exact ⟨h1, fun hr => h2 (h3 hr)⟩

/-- C10 witness: after 5 ticks the recording is still active with 5 elapsed
seconds, strictly below the limit; after 40 ticks the counter is capped. -/
theorem c10_recording_hard_stop_witness :
    (recordingTick^[5] startRecordingState).isVideoRecording = true ∧
    (recordingTick^[5] startRecordingState).recordingSeconds < MAX_RECORDING_DURATION ∧
    (recordingTick^[40] startRecordingState).recordingSeconds ≤ MAX_RECORDING_DURATION :=
  ⟨by decide, (c10_recording_hard_stop 5).2 (by decide), (c10_recording_hard_stop 40).1⟩

/-- C8: in the sendMessage tool-use loop, a model response naming a tool
absent from the dispatch table ends the conversation turn through the visible
unknown-tool error branch: whatever responses would follow, no further tool is
invoked and the result does not depend on the rest of the script. -/
theorem c8_unknown_tool_terminates (pre : List String) (name : String)
    (rest : List (Option String))
    (hpre : ∀ m ∈ pre, m ∈ toolNames) (hname : name ∉ toolNames) :
    agentLoop (pre.map some ++ some name :: rest) = (pre, true) := by
  induction pre with
  | nil =>
      simp [agentLoop, hname]
  | cons a as ih =>
      have ha : a ∈ toolNames := hpre a (by simp)
      have has : ∀ m ∈ as, m ∈ toolNames := fun m hm => hpre m (by simp [hm])
      simp [agentLoop, ha, ih has]

/-- C8 witness: a known call followed by an unknown tool name stops the loop
after the known call, ignoring the scripted responses that follow. -/
theorem c8_unknown_tool_terminates_witness :
    agentLoop (["setPrompt"].map some ++ some "summonDragon" :: [some "setQuality", none]) =
      (["setPrompt"], true) :=
  c8_unknown_tool_terminates ["setPrompt"] "summonDragon" [some "setQuality", none]
    (by decide) (by decide)

/-- C3: a merge attempt with fewer than 2 bin entries fails with the
precondition status and leaves bin, active video and command history
untouched; with at least 2 entries the issued command concatenates the clips
in bin insertion order, a successful merge replaces the active video and
clears the bin, and an engine failure leaves both the bin and the active
video unchanged. -/
theorem c3_merge_bin_behaviour (st : AppState) (v : Video) (msg : String) :
    (st.mergeBin.length < 2 →
      ∀ r, (mergeVideosClick st r).1.mergeBin = st.mergeBin ∧
           (mergeVideosClick st r).1.videoSrc = st.videoSrc ∧
           (mergeVideosClick st r).1.statusText = "Add at least 2 videos to merge." ∧
           (mergeVideosClick st r).2 = none) ∧
    (2 ≤ st.mergeBin.length → st.ffmpegLoaded = true →
      (mergeVideosClick st (Except.ok v)).2 =
        some (FfmpegOp.concat (st.mergeBin.map (fun c => c.blobHandle))) ∧
      (mergeVideosClick st (Except.ok v)).1.mergeBin = [] ∧
      (mergeVideosClick st (Except.ok v)).1.videoSrc = some v ∧
      (mergeVideosClick st (Except.error msg)).1.mergeBin = st.mergeBin ∧
      (mergeVideosClick st (Except.error msg)).1.videoSrc = st.videoSrc) := by
  constructor
  · intro hlen r
    simp [mergeVideosClick, hlen]
  · intro hlen hload
    have hnot : ¬ (st.mergeBin.length < 2 ∨ st.ffmpegLoaded = false) := by
      rintro (h | h)
      · omega
      · rw [hload] at h
        cases h
    simp [mergeVideosClick, hnot]

/-- Editor-open session state with two clips staged in the merge bin. -/
def twoClipBinState : AppState :=
  { editorOpenState with
      mergeBin :=
        [⟨none, "clip one", 11, 4, "thumb1"⟩, ⟨some 7, "clip two", 12, 6, "thumb2"⟩] }

/-- C3 witness: with a concrete 2-entry bin, the issued command lists the two
blobs in insertion order, success clears the bin and loads the merge output,
and failure preserves bin and video; with an empty bin the attempt is
rejected and nothing changes. -/
theorem c3_merge_bin_behaviour_witness :
    ((mergeVideosClick editorOpenState (Except.ok ⟨3, 10⟩)).1.mergeBin =
        editorOpenState.mergeBin ∧
      (mergeVideosClick editorOpenState (Except.ok ⟨3, 10⟩)).1.videoSrc =
        editorOpenState.videoSrc ∧
      (mergeVideosClick editorOpenState (Except.ok ⟨3, 10⟩)).1.statusText =
        "Add at least 2 videos to merge." ∧
      (mergeVideosClick editorOpenState (Except.ok ⟨3, 10⟩)).2 = none) ∧
    (mergeVideosClick twoClipBinState (Except.ok ⟨3, 10⟩)).2 =
      some (FfmpegOp.concat (twoClipBinState.mergeBin.map (fun c => c.blobHandle))) ∧
    (mergeVideosClick twoClipBinState (Except.ok ⟨3, 10⟩)).1.mergeBin = [] ∧
    (mergeVideosClick twoClipBinState (Except.ok ⟨3, 10⟩)).1.videoSrc = some ⟨3, 10⟩ ∧
    (mergeVideosClick twoClipBinState (Except.error "engine failed")).1.mergeBin =
      twoClipBinState.mergeBin ∧
    (mergeVideosClick twoClipBinState (Except.error "engine failed")).1.videoSrc =
      twoClipBinState.videoSrc := by
  have hempty := (c3_merge_bin_behaviour editorOpenState ⟨3, 10⟩ "engine failed").1
    (by decide) (Except.ok ⟨3, 10⟩)
  have hfull := (c3_merge_bin_behaviour twoClipBinState ⟨3, 10⟩ "engine failed").2
    (by decide) rfl
  exact ⟨hempty, hfull.1, hfull.2.1, hfull.2.2.1, hfull.2.2.2.1, hfull.2.2.2.2⟩

/-- C1 counterexample: on the concrete editor-open 10-second session,
trimVideo(2, 5) with a successful engine trim (output duration 3) leaves the
editor closed — applyTrim ends a successful trim by clicking Cancel — so the
session does not stay in EditorOpen with trim range [0, 3]. -/
theorem c1_counterexample :
    ¬ ((dispatchTool editorOpenState (ToolCall.trimVideo 2 5) (Except.ok ⟨1, 3⟩)).1.isEditorOpen = true ∧
       (dispatchTool editorOpenState (ToolCall.trimVideo 2 5) (Except.ok ⟨1, 3⟩)).1.trimStartSliderValue = 0 ∧
       (dispatchTool editorOpenState (ToolCall.trimVideo 2 5) (Except.ok ⟨1, 3⟩)).1.trimEndSliderValue = 3) := by
  intro h
  have hopen := h.1
  have hclosed :
      (dispatchTool editorOpenState (ToolCall.trimVideo 2 5) (Except.ok ⟨1, 3⟩)).1.isEditorOpen = false := by
    decide
  rw [hclosed] at hopen
  cases hopen

/-- C1 (amended): while the editor is open on a loaded video, a successful
applyEffect keeps the editor open and resets the trim range to the full range
[0, newDuration] of the transform output, which replaces the active video; a
successful applyTrim also replaces the active video but then closes the editor
(it clicks Cancel), so the session leaves EditorOpen instead of staying in it
and the trim range is not recomputed. -/
theorem c1_amended_trim_closes_effect_resets (st : AppState) (w v : Video)
    (name : String)
    (hopen : st.isEditorOpen = true) (hload : st.ffmpegLoaded = true)
    (hsrc : st.videoSrc = some w) :
    ((applyTrim st (Except.ok v)).1.isEditorOpen = false ∧
     (applyTrim st (Except.ok v)).1.videoSrc = some v) ∧
    (name ∈ validEffects → (name = "fade" → 2 ≤ w.duration) →
      (dispatchTool st (ToolCall.applyEffect name) (Except.ok v)).1.isEditorOpen = true ∧
      (dispatchTool st (ToolCall.applyEffect name) (Except.ok v)).1.trimStartSliderValue = 0 ∧
      (dispatchTool st (ToolCall.applyEffect name) (Except.ok v)).1.trimEndSliderValue = v.duration ∧
      (dispatchTool st (ToolCall.applyEffect name) (Except.ok v)).1.trimSliderMax = v.duration ∧
      (dispatchTool st (ToolCall.applyEffect name) (Except.ok v)).1.videoSrc = some v) := by
  constructor
  · have hguard : ¬ (st.ffmpegLoaded = false ∨ st.videoSrc = none) := by
      rintro (h | h)
      · rw [hload] at h
        cases h
      · rw [hsrc] at h
        cases h
    simp [applyTrim, cancelTrimClick, hguard]
  · intro hmem hfade
    simp only [validEffects, List.mem_cons, List.not_mem_nil, or_false] at hmem
    rcases hmem with h | h | h | h | h | h <;> subst h <;>
      first
        | (simp [dispatchTool, handleApplyEffect, videoDuration, effectVf,
             validEffects, hopen, hload, hsrc]
           done)
        | (have hge : ¬ w.duration < 2 := not_lt.mpr (hfade rfl)
           simp [dispatchTool, handleApplyEffect, videoDuration, effectVf,
             validEffects, hopen, hload, hsrc, hge])

/-- C1 amended witness: on the concrete editor-open 10-second session, a
successful slowmo effect (output 20 s) keeps the editor open with trim range
[0, 20], while a successful trim closes the editor. -/
theorem c1_amended_witness :
    (applyTrim editorOpenState (Except.ok ⟨1, 20⟩)).1.isEditorOpen = false ∧
    (applyTrim editorOpenState (Except.ok ⟨1, 20⟩)).1.videoSrc = some ⟨1, 20⟩ ∧
    (dispatchTool editorOpenState (ToolCall.applyEffect "slowmo") (Except.ok ⟨1, 20⟩)).1.isEditorOpen = true ∧
    (dispatchTool editorOpenState (ToolCall.applyEffect "slowmo") (Except.ok ⟨1, 20⟩)).1.trimStartSliderValue = 0 ∧
    (dispatchTool editorOpenState (ToolCall.applyEffect "slowmo") (Except.ok ⟨1, 20⟩)).1.trimEndSliderValue = 20 := by
  have h := c1_amended_trim_closes_effect_resets editorOpenState ⟨0, 10⟩ ⟨1, 20⟩
    "slowmo" rfl rfl rfl
  have h2 := h.2 (by decide) (fun hf => absurd hf (by decide))
  exact ⟨h.1.1, h.1.2, h2.1, h2.2.1, h2.2.2.1⟩

/-- C6: the dispatcher handlers are total functions into a result string
(nothing is raised to the agent loop), and every precondition violation —
editor closed, no video present, trim times out of bounds or start not below
end, effect name outside the enumerated set — is answered by a descriptive
rejection string with the session state left exactly unchanged. -/
theorem c6_dispatcher_rejections (st : AppState) (r : Except String Video)
    (s e : ℚ) (name : String) :
    (st.videoSrc = none →
      dispatchTool st ToolCall.openEditor r =
        (st, "A video must be generated or loaded before you can open the editor.")) ∧
    (st.isEditorOpen = false →
      dispatchTool st (ToolCall.trimVideo s e) r =
        (st, "Please open the editor first before trimming.")) ∧
    (st.isEditorOpen = true → (e ≤ s ∨ s < 0 ∨ videoDuration st < e) →
      dispatchTool st (ToolCall.trimVideo s e) r =
        (st, "Invalid trim times. Start time must be less than end time and within the video bounds.")) ∧
    (st.isEditorOpen = false →
      dispatchTool st (ToolCall.applyEffect name) r =
        (st, "Please open the editor first before applying effects.")) ∧
    (st.isEditorOpen = true → name ∉ validEffects →
      dispatchTool st (ToolCall.applyEffect name) r =
        (st, "Invalid effect. Please choose from: grayscale, sepia, vignette, fade, slowmo, fastforward.")) := by
  refine ⟨?_, ?_, ?_, ?_, ?_⟩
  · intro hnone
    simp [dispatchTool, hnone]
  · intro hclosed
    simp [dispatchTool, hclosed]
  · intro hopen hbad
    simp [dispatchTool, hopen, hbad]
  · intro hclosed
    simp [dispatchTool, hclosed]
  · intro hopen hinvalid
    simp [dispatchTool, hopen, hinvalid]

/-- C6 witness: concrete rejections — openEditor with no video, trimming with
the editor closed, out-of-bounds trim times with the editor open, and an
unknown effect name — each return the message and leave the state unchanged. -/
theorem c6_dispatcher_rejections_witness :
    dispatchTool closedNoVideoState ToolCall.openEditor (Except.error "x") =
      (closedNoVideoState, "A video must be generated or loaded before you can open the editor.") ∧
    dispatchTool closedNoVideoState (ToolCall.trimVideo 2 5) (Except.error "x") =
      (closedNoVideoState, "Please open the editor first before trimming.") ∧
    dispatchTool closedNoVideoState (ToolCall.applyEffect "grayscale") (Except.error "x") =
      (closedNoVideoState, "Please open the editor first before applying effects.") ∧
    dispatchTool editorOpenState (ToolCall.trimVideo 5 2) (Except.error "x") =
      (editorOpenState, "Invalid trim times. Start time must be less than end time and within the video bounds.") ∧
    dispatchTool editorOpenState (ToolCall.applyEffect "sparkle") (Except.error "x") =
      (editorOpenState, "Invalid effect. Please choose from: grayscale, sepia, vignette, fade, slowmo, fastforward.") := by
  have hc := c6_dispatcher_rejections closedNoVideoState (Except.error "x") 2 5 "grayscale"
  have ho := c6_dispatcher_rejections editorOpenState (Except.error "x") 5 2 "sparkle"
  exact ⟨hc.1 rfl, hc.2.1 rfl, hc.2.2.2.1 rfl,
    ho.2.2.1 rfl (Or.inl (by norm_num)), ho.2.2.2.2 rfl (by decide)⟩

/-- C7: while the editor is open, the dispatcher reports success even when the
underlying operation did nothing — a trim whose engine transform fails still
answers "Video trimmed successfully.", and applying fade to a clip shorter
than 2 seconds (which the handler rejects before any transform) still answers
"Applied the fade effect successfully." — in both cases with the active video
unchanged. -/
theorem c7_success_string_despite_failure (st : AppState) (v : Video)
    (s e : ℚ) (errmsg : String) (r : Except String Video)
    (hopen : st.isEditorOpen = true) :
    (¬ (e ≤ s ∨ s < 0 ∨ videoDuration st < e) →
      (dispatchTool st (ToolCall.trimVideo s e) (Except.error errmsg)).2 =
        "Video trimmed successfully." ∧
      (dispatchTool st (ToolCall.trimVideo s e) (Except.error errmsg)).1.videoSrc =
        st.videoSrc) ∧
    (st.ffmpegLoaded = true → st.videoSrc = some v → v.duration < 2 →
      (dispatchTool st (ToolCall.applyEffect "fade") r).2 =
        "Applied the fade effect successfully." ∧
      (dispatchTool st (ToolCall.applyEffect "fade") r).1.videoSrc = st.videoSrc) := by
  constructor
  · intro hok
    constructor
    · simp [dispatchTool, hopen, hok]
    · by_cases hguard : st.ffmpegLoaded = false ∨ st.videoSrc = none
      · simp [dispatchTool, applyTrim, hopen, hok, hguard]
      · simp [dispatchTool, applyTrim, hopen, hok, hguard]
  · intro hload hsrc hshort
    have hmem : "fade" ∈ validEffects := by decide
    simp [dispatchTool, handleApplyEffect, videoDuration, hopen, hmem, hload,
      hsrc, hshort]

/-- C7 witness: on the concrete editor-open 1-second session, a failing engine
trim and a rejected fade both come back as success strings with the video
untouched. -/
theorem c7_success_string_despite_failure_witness :
    (dispatchTool fadeShortState (ToolCall.trimVideo 0 1) (Except.error "boom")).2 =
      "Video trimmed successfully." ∧
    (dispatchTool fadeShortState (ToolCall.trimVideo 0 1) (Except.error "boom")).1.videoSrc =
      fadeShortState.videoSrc ∧
    (dispatchTool fadeShortState (ToolCall.applyEffect "fade") (Except.ok ⟨9, 9⟩)).2 =
      "Applied the fade effect successfully." ∧
    (dispatchTool fadeShortState (ToolCall.applyEffect "fade") (Except.ok ⟨9, 9⟩)).1.videoSrc =
      fadeShortState.videoSrc := by
  have h := c7_success_string_despite_failure fadeShortState ⟨0, 1⟩ 0 1 "boom"
    (Except.ok ⟨9, 9⟩) rfl
  have h1 := h.1 (by decide)
  have h2 := h.2 rfl rfl (by norm_num)
  exact ⟨h1.1, h1.2, h2.1, h2.2⟩

/-- C5 counterexample: with the start bound previously parked at the slider
maximum (start = 10, end = 10, max = 10), moving the end slider to 3 clamps
the end bound to min(max, start + 0.1) = 10, leaving start = end = 10 — the
invariant start < end does not hold for all prior values of the bounds. -/
theorem c5_counterexample :
    ¬ ((trimEndSliderInput sliderEdgeState 3).trimStartSliderValue <
       (trimEndSliderInput sliderEdgeState 3).trimEndSliderValue) := by
  have hc : (3 : ℚ) ≤ sliderEdgeState.trimStartSliderValue := by
    norm_num [sliderEdgeState, editorOpenState]
  simp only [trimEndSliderInput, if_pos hc]
  have hmin : min sliderEdgeState.trimSliderMax
      (sliderEdgeState.trimStartSliderValue + 1 / 10) = ((100 : ℤ) : ℚ) / 10 := by
    norm_num [sliderEdgeState, editorOpenState]
  rw [hmin, roundTenth_intMul]
  norm_num [sliderEdgeState, editorOpenState]

/-- C5 (amended): each of the four trim-range handlers preserves the invariant
start < end provided the prior state is well formed: bounds satisfying
0 ≤ start < end ≤ sliderMax with the slider maximum equal to the video
duration, and the prior start bound and the slider maximum lying on the 0.1
step grid (as slider-produced values do). Without the boundary conditions the
end-slider clamp can land exactly on the start bound. -/
theorem c5_amended_clamp_invariant (st : AppState) (w : Video) (ks kD : ℤ)
    (hsrc : st.videoSrc = some w)
    (hmax : st.trimSliderMax = w.duration)
    (h0 : 0 ≤ st.trimStartSliderValue)
    (hlt : st.trimStartSliderValue < st.trimEndSliderValue)
    (hle : st.trimEndSliderValue ≤ st.trimSliderMax)
    (hks : st.trimStartSliderValue = (ks : ℚ) / 10)
    (hkD : st.trimSliderMax = (kD : ℚ) / 10) :
    (∀ u, (trimStartSliderInput st u).trimStartSliderValue <
        (trimStartSliderInput st u).trimEndSliderValue) ∧
    (∀ u, (trimEndSliderInput st u).trimStartSliderValue <
        (trimEndSliderInput st u).trimEndSliderValue) ∧
    (∀ u, (trimStartTimeInputChange st u).trimStartSliderValue <
        (trimStartTimeInputChange st u).trimEndSliderValue) ∧
    (∀ u, (trimEndTimeInputChange st u).trimStartSliderValue <
        (trimEndTimeInputChange st u).trimEndSliderValue) := by
  have he : 0 < st.trimEndSliderValue := lt_of_le_of_lt h0 hlt
  refine ⟨?_, ?_, ?_, ?_⟩
  · intro u
    by_cases hc : st.trimEndSliderValue ≤ u
    · simp only [trimStartSliderInput, if_pos hc]
      exact roundTenth_pushback_lt _ he
    · simp only [trimStartSliderInput, if_neg hc]
      exact not_le.mp hc
  · intro u
    by_cases hc : u ≤ st.trimStartSliderValue
    · simp only [trimEndSliderInput, if_pos hc]
      have hsD : st.trimStartSliderValue < st.trimSliderMax := lt_of_lt_of_le hlt hle
      have hklt : ks < kD := by
        have hq : (ks : ℚ) / 10 < (kD : ℚ) / 10 := by
          rw [← hks, ← hkD]
          exact hsD
        have hq2 : (ks : ℚ) < (kD : ℚ) := by linarith
        exact_mod_cast hq2
      have hle1 : st.trimStartSliderValue + 1 / 10 ≤ st.trimSliderMax := by
        rw [hks, hkD]
        have hcast : (ks : ℚ) + 1 ≤ (kD : ℚ) := by exact_mod_cast hklt
        linarith
      rw [min_eq_right hle1]
      have hstep : st.trimStartSliderValue + 1 / 10 = ((ks + 1 : ℤ) : ℚ) / 10 := by
        rw [hks]
        push_cast
        ring
      rw [hstep, roundTenth_intMul, ← hstep]
      linarith
    · simp only [trimEndSliderInput, if_neg hc]
      exact not_le.mp hc
  · intro u
    by_cases hc : st.trimEndSliderValue ≤ max 0 (min u (videoDuration st))
    · simp only [trimStartTimeInputChange, if_pos hc]
      exact max_lt he (by linarith)
    · simp only [trimStartTimeInputChange, if_neg hc]
      exact not_le.mp hc
  · intro u
    have hD : videoDuration st = st.trimSliderMax := by
      rw [hmax]
      simp [videoDuration, hsrc]
    by_cases hc : max 0 (min u (videoDuration st)) ≤ st.trimStartSliderValue
    · simp only [trimEndTimeInputChange, if_pos hc]
      refine lt_min ?_ (by linarith)
      rw [hD]
      exact lt_of_lt_of_le hlt hle
    · simp only [trimEndTimeInputChange, if_neg hc]
      exact not_le.mp hc

/-- C5 amended witness: on the concrete well-formed editor-open 10-second
state, each handler keeps start < end, including clamped moves. -/
theorem c5_amended_clamp_invariant_witness :
    ((trimStartSliderInput editorOpenState 12).trimStartSliderValue <
      (trimStartSliderInput editorOpenState 12).trimEndSliderValue) ∧
    ((trimEndSliderInput editorOpenState 0).trimStartSliderValue <
      (trimEndSliderInput editorOpenState 0).trimEndSliderValue) ∧
    ((trimStartTimeInputChange editorOpenState 99).trimStartSliderValue <
      (trimStartTimeInputChange editorOpenState 99).trimEndSliderValue) ∧
    ((trimEndTimeInputChange editorOpenState (-4)).trimStartSliderValue <
      (trimEndTimeInputChange editorOpenState (-4)).trimEndSliderValue) := by
  have h := c5_amended_clamp_invariant editorOpenState ⟨0, 10⟩ 0 100 rfl rfl
    (by norm_num [editorOpenState]) (by norm_num [editorOpenState])
    (by norm_num [editorOpenState]) (by norm_num [editorOpenState])
    (by norm_num [editorOpenState])
  exact ⟨h.1 12, h.2.1 0, h.2.2.1 99, h.2.2.2 (-4)⟩

end AiVideo
